import Mathlib

/-!
Verification of the feedback-dashboard pipeline (app.py / app1.py):
keyword sentiment classification, schema validation, aggregation counts,
genre filtering, prompt building and truncation, and the button handler
around the remote LLM call. Each Python fragment is embedded as a Lean
definition; theorems below settle the specified properties.
-/

/-- The three sentiment labels produced by `classify_sentiment`. -/
inductive Sentiment where
  | Positive
  | Negative
  | Neutral
deriving DecidableEq, Repr

/-- Checks that `needle` is an initial segment of `haystack`. -/
def startsWithChars : List Char → List Char → Bool
  | [], _ => true
  | _ :: _, [] => false
  | a :: as, b :: bs => a == b && startsWithChars as bs

/-- Substring test: `needle` occurs as a contiguous substring of
`haystack`. Mirrors Python `needle in haystack` on strings. -/
def hasSub (needle : List Char) : List Char → Bool
  | [] => startsWithChars needle []
  | b :: bs => startsWithChars needle (b :: bs) || hasSub needle bs

/-- Python `word in text` for strings. -/
def strContains (haystack needle : String) : Bool :=
  hasSub needle.data haystack.data

/-- Python `text.lower()` (character-wise lowercasing). -/
def lowerStr (s : String) : String :=
  ⟨s.data.map Char.toLower⟩

/-- The positive keyword set of `classify_sentiment` (app.py line 73). -/
def positive_words : List String :=
  ["love", "great", "excellent", "amazing", "satisfied"]

/-- The negative keyword set of `classify_sentiment` (app.py line 75). -/
def negative_words : List String :=
  ["bad", "poor", "terrible", "worst", "delay", "issue"]

/-- app.py lines 71-77: lower-case the text, return Positive on any positive
keyword hit, else Negative on any negative keyword hit, else Neutral. -/
def classify_sentiment (text : String) : Sentiment :=
  let t := lowerStr text
  if positive_words.any (fun word => strContains t word) then Sentiment.Positive
  else if negative_words.any (fun word => strContains t word) then Sentiment.Negative
  else Sentiment.Neutral

example : classify_sentiment ("This was great and amazing") = Sentiment.Positive := by decide
example : classify_sentiment ("Worst delay ever, terrible issue") = Sentiment.Negative := by decide
example : classify_sentiment ("") = Sentiment.Neutral := by decide
example : classify_sentiment ("badge") = Sentiment.Negative := by decide
example : classify_sentiment ("tissue") = Sentiment.Negative := by decide

/-- app.py line 60: the columns the dataset must provide. -/
def required_cols : List String := ["Feedback", "Genre"]

/-- app.py line 62: the fixed error text shown when a required column is absent. -/
def schema_error_message : String :=
  "Dataset must contain \x27Feedback\x27 and \x27Genre\x27 columns."

/-- app.py lines 61-63: the schema gate. Returns the error message when any
required column is missing from the parsed columns, `none` otherwise. -/
def schema_check (columns : List String) : Option String :=
  if required_cols.any (fun col => !(columns.contains col)) then
    some schema_error_message
  else
    none

/-- The required columns actually absent from `columns`. -/
def missing_required (columns : List String) : List String :=
  required_cols.filter (fun col => !(columns.contains col))

/-- Predicate: message `msg` names column `col` when `col` occurs verbatim in `msg`. -/
def message_names (msg col : String) : Bool :=
  strContains msg col

/-- A loaded feedback record: the two columns app.py requires. -/
structure Row where
  Feedback : String
  Genre : String
deriving DecidableEq, Repr

/-- A record after the enrichment stage added the Sentiment column. -/
structure EnrichedRow where
  Feedback : String
  Genre : String
  Sentiment : Sentiment
deriving DecidableEq, Repr

/-- app.py line 79: `df["Sentiment"] = df["Feedback"].apply(classify_sentiment)`. -/
def enrich (df : List Row) : List EnrichedRow :=
  df.map (fun r => ⟨r.Feedback, r.Genre, classify_sentiment r.Feedback⟩)

/-- pandas `Series.value_counts`: one count per distinct value. -/
def value_counts (l : List Sentiment) : List (Sentiment × Nat) :=
  l.dedup.map (fun s => (s, l.count s))

/-- app.py lines 85-86: overall sentiment counts. -/
def sentiment_counts (df : List EnrichedRow) : List (Sentiment × Nat) :=
  value_counts (df.map EnrichedRow.Sentiment)

/-- app.py lines 101-105: `df.groupby(["Genre", "Sentiment"]).size()`. -/
def genre_sentiment (df : List EnrichedRow) : List ((String × Sentiment) × Nat) :=
  let keys := df.map (fun r => (r.Genre, r.Sentiment))
  keys.dedup.map (fun k => (k, keys.count k))

/-- app.py line 125: `genre_df = df[df["Genre"] == selected_genre]`. -/
def genre_df (df : List EnrichedRow) (selected_genre : String) : List EnrichedRow :=
  df.filter (fun r => r.Genre == selected_genre)

/-- The bounded sample fed into the prompt: `tolist()[:max_rows]`. -/
def feedback_sample (feedbacks : List String) (max_rows : Nat) : List String :=
  feedbacks.take max_rows

/-- app.py line 151 / app1.py line 63: newline-join of the bounded sample. -/
def feedback_text (feedbacks : List String) (max_rows : Nat) : String :=
  String.intercalate ("\n") (feedback_sample feedbacks max_rows)

/-- app.py line 151 applied after line 125: the feedback strings of the
genre-filtered table, truncated to the first 120. -/
def genre_feedback_sample (df : List EnrichedRow) (selected_genre : String) : List String :=
  feedback_sample ((genre_df df selected_genre).map EnrichedRow.Feedback) 120

/-- app.py lines 153-171: the f-string prompt template. -/
def build_prompt (decision_objective selected_genre : String)
    (feedbacks : List String) (max_rows : Nat) : String :=
  "\nYou are a Decision Intelligence expert.\n\nDecision Objective:\n"
    ++ decision_objective
    ++ "\n\nGenre:\n"
    ++ selected_genre
    ++ "\n\nAnalyze the customer feedback below and provide:\n\n1. Key Behavioral Patterns (recurring behaviors and signals)\n2. Risk Assessment (business impact of these patterns)\n3. Decision Mapping (recommended actions, priority)\n4. Strategic Recommendations aligned to the objective\n\nCustomer Feedback:\n"
    ++ feedback_text feedbacks max_rows
    ++ "\n"

/-- app1.py lines 65-76: the variant prompt template (no genre). -/
def build_prompt_app1 (feedbacks : List String) (max_rows : Nat) : String :=
  "\nYou are a senior business analyst.\n\nAnalyze the following customer feedback and provide:\n1. Overall sentiment summary\n2. Key recurring issues or themes\n3. Positive highlights\n4. Clear, actionable business recommendations\n\nCustomer Feedback:\n"
    ++ feedback_text feedbacks max_rows
    ++ "\n"

/-- The visible elements a run of the script renders. -/
inductive UIElement where
  | chart (name : String)
  | table (name : String)
  | divider
  | markdownText (s : String)
  | errorBanner (s : String)
  | successBanner (s : String)
deriving DecidableEq, Repr

/-- app.py lines 176-191: the body of the try/except under the button. A successful
call renders a divider, a heading and the returned text; any exception is
caught there and rendered as a single error banner. -/
def insight_section (result : Except String String) : List UIElement :=
  match result with
  | Except.ok content =>
      [UIElement.divider,
       UIElement.markdownText ("## Decision Intelligence Output"),
       UIElement.markdownText content]
  | Except.error e =>
      [UIElement.errorBanner ("OpenAI Error: " ++ e)]

/-- In-memory state of one script run: the loaded table and what is on screen. -/
structure AppState where
  df : List EnrichedRow
  rendered : List UIElement
deriving DecidableEq, Repr

/-- app.py lines 174-191: clicking the button appends the insight section
(or the error banner) after everything already rendered; the dataframe is
not touched. -/
def run_button (s : AppState) (result : Except String String) : AppState :=
  ⟨s.df, s.rendered ++ insight_section result⟩

/-- Number of error banners among rendered elements. -/
def error_count (l : List UIElement) : Nat :=
  (l.filter (fun x => match x with
    | UIElement.errorBanner _ => true
    | _ => false)).length

/-- Number of newline-separated lines of a string: one more than the count of
newline characters, which is the length of the list Python text.split with the
newline separator returns. -/
def lineCount (s : String) : Nat := s.data.count (Char.ofNat 10) + 1

/-- Modelled from the claim: filter the whole table by the selected genre
first, then keep the first 120 matching rows. -/
def sample_filter_then_truncate (df : List EnrichedRow) (selected_genre : String) : List String :=
  ((df.filter fun r => r.Genre == selected_genre).map EnrichedRow.Feedback).take 120

/-- Modelled from the claim: keep the first 120 rows of the whole table first,
then filter those by the selected genre. -/
def sample_truncate_then_filter (df : List EnrichedRow) (selected_genre : String) : List String :=
  ((df.take 120).filter fun r => r.Genre == selected_genre).map EnrichedRow.Feedback

/-! ### Helper lemmas -/

lemma classify_eq_positive (t : String)
    (h : positive_words.any (fun word => strContains (lowerStr t) word) = true) :
    classify_sentiment t = Sentiment.Positive := by
  simp only [classify_sentiment]
  rw [if_pos h]

lemma classify_eq_negative (t : String)
    (h1 : positive_words.any (fun word => strContains (lowerStr t) word) = false)
    (h2 : negative_words.any (fun word => strContains (lowerStr t) word) = true) :
    classify_sentiment t = Sentiment.Negative := by
  simp only [classify_sentiment]
  rw [if_neg (by simp [h1]), if_pos h2]

lemma classify_eq_neutral (t : String)
    (h1 : positive_words.any (fun word => strContains (lowerStr t) word) = false)
    (h2 : negative_words.any (fun word => strContains (lowerStr t) word) = false) :
    classify_sentiment t = Sentiment.Neutral := by
  simp only [classify_sentiment]
  rw [if_neg (by simp [h1]), if_neg (by simp [h2])]

lemma intercalate_go_data_count (c : Char) (sep : String) (l : List String) (acc : String) :
    (String.intercalate.go acc sep l).data.count c =
      acc.data.count c + ((l.map fun s => s.data.count c).sum + l.length * sep.data.count c) := by
  induction l generalizing acc with
  | nil => simp [String.intercalate.go]
  | cons a as ih =>
      rw [String.intercalate.go, ih]
      simp only [String.data_append, List.count_append, List.map_cons, List.sum_cons,
        List.length_cons]
      ring

lemma intercalate_data_count (c : Char) (sep : String) (a : String) (as : List String) :
    (String.intercalate sep (a :: as)).data.count c =
      ((a :: as).map fun s => s.data.count c).sum + as.length * sep.data.count c := by
  rw [String.intercalate, intercalate_go_data_count]
  simp only [List.map_cons, List.sum_cons]
  ring

lemma feedback_text_lineCount (feedbacks : List String) (max_rows : Nat)
    (hnl : ∀ s ∈ feedbacks, s.data.count (Char.ofNat 10) = 0)
    (hne : feedbacks ≠ []) (hm : 1 ≤ max_rows) :
    lineCount (feedback_text feedbacks max_rows) = min max_rows feedbacks.length := by
  match hl : feedbacks.take max_rows with
  | [] =>
      exfalso
      have : min max_rows feedbacks.length = 0 := by
        simpa [hl] using (List.length_take max_rows feedbacks).symm
      rcases Nat.min_eq_zero_iff.mp this with h | h
      · omega
      · exact hne (List.length_eq_zero.mp h)
  | a :: as =>
      have hsub : ∀ s ∈ a :: as, s.data.count (Char.ofNat 10) = 0 := by
        intro s hs
        exact hnl s (List.take_subset max_rows feedbacks (hl ▸ hs))
      have hsum : ((a :: as).map fun s => s.data.count (Char.ofNat 10)).sum = 0 := by
        rw [List.sum_eq_zero_iff]
        intro n hn
        obtain ⟨s, hs, rfl⟩ := List.mem_map.mp hn
        exact hsub s hs
      have hlen : (a :: as).length = min max_rows feedbacks.length := by
        rw [← hl]; exact List.length_take max_rows feedbacks
      unfold lineCount feedback_text feedback_sample
      rw [hl, intercalate_data_count, hsum]
      have hsep : (("\n" : String)).data.count (Char.ofNat 10) = 1 := by decide
      rw [hsep]
      simp only [List.length_cons] at hlen ⊢
      omega

lemma count_eq_of_lawful {α : Type} (i1 i2 : BEq α)
    (h1 : @LawfulBEq α i1) (h2 : @LawfulBEq α i2) (k : α) (l : List α) :
    @List.count α i1 k l = @List.count α i2 k l := by
  induction l with
  | nil => rfl
  | cons a as ih =>
      rw [@List.count_cons α i1, @List.count_cons α i2, ih]
      congr 1
      by_cases h : a = k
      · subst h
        have e1 : (@BEq.beq α i1 a a) = true := h1.rfl
        have e2 : (@BEq.beq α i2 a a) = true := h2.rfl
        rw [e1, e2]
      · have e1 : (@BEq.beq α i1 a k) = false := by
          cases hb : @BEq.beq α i1 a k
          · rfl
          · exact absurd (h1.eq_of_beq hb) h
        have e2 : (@BEq.beq α i2 a k) = false := by
          cases hb : @BEq.beq α i2 a k
          · rfl
          · exact absurd (h2.eq_of_beq hb) h
        rw [e1, e2]

/-! ### Claim theorems -/

/-- Claim C1: `classify_sentiment` is a total deterministic pure function into
the three labels Positive, Negative, Neutral; on "This was great and amazing"
it returns Positive, on "Worst delay ever, terrible issue" it returns Negative,
and on the empty string it returns Neutral. -/
theorem classify_sentiment_total_three_valued :
    (∀ text : String,
      classify_sentiment text = Sentiment.Positive ∨
      classify_sentiment text = Sentiment.Negative ∨
      classify_sentiment text = Sentiment.Neutral) ∧
    classify_sentiment ("This was great and amazing") = Sentiment.Positive ∧
    classify_sentiment ("Worst delay ever, terrible issue") = Sentiment.Negative ∧
    classify_sentiment ("") = Sentiment.Neutral := by
  refine ⟨fun text => ?_, by decide, by decide, by decide⟩
  simp only [classify_sentiment]
  split
  · exact Or.inl rfl
  · split
    · exact Or.inr (Or.inl rfl)
    · exact Or.inr (Or.inr rfl)

/-- Claim C4: the positive keyword set is checked first and the first match
wins: a text whose lower-cased form contains a positive keyword classifies as
Positive even when negative keywords are also present; with no positive but
some negative keyword it classifies as Negative; with neither it is Neutral. -/
theorem classify_sentiment_positive_first (text : String) :
    ((∃ word ∈ positive_words, strContains (lowerStr text) word = true) →
      classify_sentiment text = Sentiment.Positive) ∧
    ((∀ word ∈ positive_words, strContains (lowerStr text) word = false) →
     (∃ word ∈ negative_words, strContains (lowerStr text) word = true) →
      classify_sentiment text = Sentiment.Negative) ∧
    ((∀ word ∈ positive_words, strContains (lowerStr text) word = false) →
     (∀ word ∈ negative_words, strContains (lowerStr text) word = false) →
      classify_sentiment text = Sentiment.Neutral) := by
  refine ⟨fun h => ?_, fun h1 h2 => ?_, fun h1 h2 => ?_⟩
  · exact classify_eq_positive text (List.any_eq_true.mpr h)
  · exact classify_eq_negative text (List.any_eq_false.mpr (fun x hx => by simp [h1 x hx])) (List.any_eq_true.mpr h2)
  · exact classify_eq_neutral text (List.any_eq_false.mpr (fun x hx => by simp [h1 x hx])) (List.any_eq_false.mpr (fun x hx => by simp [h2 x hx]))

/-- Companion witness for C4 at a concrete input that contains both a positive
keyword ("great") and a negative keyword ("issue"): positive wins. -/
theorem classify_sentiment_positive_first_witness :
    classify_sentiment ("great issue") = Sentiment.Positive :=
  (classify_sentiment_positive_first ("great issue")).1 ⟨"great", by decide, by decide⟩

/-- Claim C8: keyword matching is substring containment, not whole-word
matching: any text whose lower-cased form contains a negative keyword embedded
in a longer word and no positive keyword classifies as Negative; in particular
"badge" (contains "bad") and "tissue" (contains "issue") are Negative. -/
theorem classify_sentiment_substring_matching :
    (∀ text : String,
      (∀ word ∈ positive_words, strContains (lowerStr text) word = false) →
      (∃ word ∈ negative_words, strContains (lowerStr text) word = true) →
      classify_sentiment text = Sentiment.Negative) ∧
    strContains (lowerStr ("badge")) "bad" = true ∧
    strContains (lowerStr ("tissue")) "issue" = true ∧
    classify_sentiment ("badge") = Sentiment.Negative ∧
    classify_sentiment ("tissue") = Sentiment.Negative := by
  refine ⟨fun text h1 h2 => ?_, by decide, by decide, by decide, by decide⟩
  exact classify_eq_negative text (List.any_eq_false.mpr (fun x hx => by simp [h1 x hx])) (List.any_eq_true.mpr h2)

/-- Companion witness for C8 at the concrete input "badge". -/
theorem classify_sentiment_substring_matching_witness :
    classify_sentiment ("badge") = Sentiment.Negative :=
  classify_sentiment_substring_matching.1 ("badge") (by decide) ⟨"bad", by decide, by decide⟩

/-- Claim C5: the aggregation counts sum to the number of input rows: both the
overall sentiment value counts of app.py lines 85-86 and the genre-by-sentiment
group counts of lines 101-105. -/
theorem aggregation_counts_sum_to_rows (df : List EnrichedRow) :
    ((sentiment_counts df).map Prod.snd).sum = df.length ∧
    ((genre_sentiment df).map Prod.snd).sum = df.length := by
  constructor
  · simp only [sentiment_counts, value_counts, List.map_map]
    have h := List.sum_map_count_dedup_eq_length (df.map EnrichedRow.Sentiment)
    simpa using h
  · simp only [genre_sentiment, List.map_map]
    have h := List.sum_map_count_dedup_eq_length (df.map fun r => (r.Genre, r.Sentiment))
    simp only [List.length_map] at h
    rw [← h]
    refine congrArg List.sum (List.map_congr_left fun k hk => ?_)
    simp only [Function.comp_apply]
    exact count_eq_of_lawful instBEqProd instBEqOfDecidableEq inferInstance
      (@instLawfulBEq _ _) k _

/-- Claim C6: when the remote call fails, the exception is converted into
exactly one error banner appended after everything already rendered; the
previously rendered elements and the loaded dataframe are unchanged. -/
theorem run_button_error_isolation (s : AppState) (e : String) :
    (run_button s (Except.error e)).df = s.df ∧
    (run_button s (Except.error e)).rendered
      = s.rendered ++ [UIElement.errorBanner ("OpenAI Error: " ++ e)] ∧
    error_count (insight_section (Except.error e)) = 1 ∧
    error_count (insight_section (Except.ok ("report"))) = 0 :=
  ⟨rfl, rfl, rfl, rfl⟩

/-- Claim C7: `build_prompt` is deterministic: two calls on equal inputs
(objective, selected genre, feedback rows, max_rows) give byte-identical
prompts, and likewise for the app1 variant. -/
theorem build_prompt_deterministic
    (o1 o2 g1 g2 : String) (f1 f2 : List String) (m1 m2 : Nat)
    (ho : o1 = o2) (hg : g1 = g2) (hf : f1 = f2) (hm : m1 = m2) :
    build_prompt o1 g1 f1 m1 = build_prompt o2 g2 f2 m2 ∧
    build_prompt_app1 f1 m1 = build_prompt_app1 f2 m2 := by
  subst ho; subst hg; subst hf; subst hm
  exact ⟨rfl, rfl⟩

/-- Companion witness for C7 at concrete equal inputs. -/
theorem build_prompt_deterministic_witness :
    build_prompt ("Improve Customer Retention") "Drama" ["fine"] 120
      = build_prompt ("Improve Customer Retention") "Drama" ["fine"] 120 :=
  (build_prompt_deterministic ("Improve Customer Retention") "Improve Customer Retention"
    "Drama" "Drama" ["fine"] ["fine"] 120 120 rfl rfl rfl rfl).1

/-- Claim C9: enrichment only adds the Sentiment column: the enriched table
has the same number of rows, and the Feedback and Genre values of every row
are unchanged and in the same order. -/
theorem enrich_preserves_existing_columns (df : List Row) :
    (enrich df).length = df.length ∧
    (enrich df).map (fun r => (r.Feedback, r.Genre))
      = df.map (fun r => (r.Feedback, r.Genre)) := by
  constructor
  · simp [enrich]
  · simp [enrich, List.map_map]

/-- Claim C2: the prompt builder includes at most `max_rows` feedback values —
the first `max_rows` rows in original row order, later rows dropped — and never
more than `max_rows` feedback lines; with 500 input rows and max_rows = 120 the
feedback section has exactly 120 lines. -/
theorem feedback_sample_bounded (feedbacks : List String) (max_rows : Nat) :
    (feedback_sample feedbacks max_rows).length ≤ max_rows ∧
    feedback_sample feedbacks max_rows ++ feedbacks.drop max_rows = feedbacks ∧
    ((∀ s ∈ feedbacks, s.data.count (Char.ofNat 10) = 0) → 1 ≤ max_rows →
      feedbacks ≠ [] →
      lineCount (feedback_text feedbacks max_rows) = min max_rows feedbacks.length) ∧
    (feedbacks.length = 500 → max_rows = 120 →
      (feedback_sample feedbacks max_rows).length = 120 ∧
      ((∀ s ∈ feedbacks, s.data.count (Char.ofNat 10) = 0) →
        lineCount (feedback_text feedbacks max_rows) = 120)) := by
  refine ⟨?_, ?_, ?_, ?_⟩
  · simp only [feedback_sample, List.length_take]
    exact Nat.min_le_left _ _
  · exact List.take_append_drop max_rows feedbacks
  · intro hnl hm hne
    exact feedback_text_lineCount feedbacks max_rows hnl hne hm
  · intro h500 h120
    subst h120
    constructor
    · show (List.take 120 feedbacks).length = 120
      rw [List.length_take, h500]
      omega
    · intro hnl
      have hne : feedbacks ≠ [] := by
        intro hnil
        rw [hnil] at h500
        simp at h500
      rw [feedback_text_lineCount feedbacks 120 hnl hne (by omega), h500]
      omega

/-- Companion witness for C2 on 500 concrete newline-free rows with
max_rows = 120: the sample has exactly 120 values and the joined feedback
section has exactly 120 lines. -/
theorem feedback_sample_bounded_witness :
    (feedback_sample (List.replicate 500 "ok") 120).length = 120 ∧
    lineCount (feedback_text (List.replicate 500 "ok") 120) = 120 := by
  have h := (feedback_sample_bounded (List.replicate 500 "ok") 120).2.2.2
    (by rw [List.length_replicate]) rfl
  refine ⟨h.1, h.2 ?_⟩
  intro s hs
  rw [List.eq_of_mem_replicate hs]
  rfl

/-- Claim C3 is false on the code: when only Genre is missing (columns contain
just Feedback), the schema gate still emits its fixed message, which also names
Feedback — so the message does not name exactly the missing columns. -/
theorem schema_message_not_exact :
    ¬ (∀ columns : List String,
        missing_required columns ≠ [] →
        ∃ msg, schema_check columns = some msg ∧
          ∀ col ∈ required_cols,
            (message_names msg col = true ↔ col ∈ missing_required columns)) := by
  intro h
  obtain ⟨msg, hmsg, hnames⟩ := h ["Feedback"] (by decide)
  rw [show schema_check ["Feedback"] = some schema_error_message from by decide] at hmsg
  have hm : schema_error_message = msg := Option.some.inj hmsg
  have h1 : message_names msg ("Feedback") = true := by rw [← hm]; decide
  have h2 : "Feedback" ∈ missing_required ["Feedback"] :=
    (hnames ("Feedback") (by decide)).mp h1
  exact absurd h2 (by decide)

/-- Claim C3 amended: whenever any required column is missing the schema gate
fails, but with one fixed error message that names every required column (both
Feedback and Genre), regardless of which columns are actually missing. -/
theorem schema_check_fixed_message (columns : List String) :
    (schema_check columns = some schema_error_message ↔
      missing_required columns ≠ []) ∧
    ∀ col ∈ required_cols, message_names schema_error_message col = true := by
  have key : (required_cols.any fun col => !(columns.contains col)) = true ↔
      missing_required columns ≠ [] := by
    rw [List.any_eq_true]
    constructor
    · rintro ⟨c, hc, hb⟩ hnil
      exact absurd (hnil ▸ List.mem_filter.mpr ⟨hc, hb⟩) (List.not_mem_nil c)
    · intro hne
      obtain ⟨c, hc⟩ := List.exists_mem_of_ne_nil _ hne
      obtain ⟨h1, h2⟩ := List.mem_filter.mp hc
      exact ⟨c, h1, h2⟩
  refine ⟨?_, by decide⟩
  by_cases hb : (required_cols.any fun col => !(columns.contains col)) = true
  · rw [schema_check, if_pos hb]
    exact ⟨fun _ => key.mp hb, fun _ => rfl⟩
  · rw [schema_check, if_neg hb]
    constructor
    · intro hcontra
      exact Option.noConfusion hcontra
    · intro hne
      exact absurd (key.mpr hne) hb

/-- Companion witness for the amended C3 at the concrete columns list
containing only Feedback. -/
theorem schema_check_fixed_message_witness :
    schema_check ["Feedback"] = some schema_error_message ∧
    message_names schema_error_message ("Genre") = true :=
  ⟨(schema_check_fixed_message ["Feedback"]).1.mpr (by decide),
   (schema_check_fixed_message ["Feedback"]).2 ("Genre") (by decide)⟩

/-- Claim C10: in the genre-filtered variant the genre filter runs before the
truncation: the prompt sample is always the first 120 genre-matching rows of
the whole table, and is not in general the genre-matching rows among the first
120 rows of the table. -/
theorem genre_filter_precedes_truncation :
    (∀ (df : List EnrichedRow) (selected_genre : String),
      genre_feedback_sample df selected_genre
        = sample_filter_then_truncate df selected_genre) ∧
    ¬ (∀ (df : List EnrichedRow) (selected_genre : String),
      genre_feedback_sample df selected_genre
        = sample_truncate_then_filter df selected_genre) := by
  constructor
  · intro df selected_genre
    rfl
  · intro h
    have hc := h (⟨"x", "B", Sentiment.Neutral⟩ ::
      List.replicate 120 ⟨"y", "A", Sentiment.Neutral⟩) "A"
    exact absurd hc (by decide)
